import Mathlib

/-!
Verification model of the `lcbiazon/ecommerce` repository payment components.

The development shallowly embeds the Python code of
`ecommerce/edx_cybersource_plugin/processors.py`,
`ecommerce/edx_cybersource_plugin/constants.py`,
`ecommerce/extensions/payment/utils.py`,
`ecommerce/extensions/payment/views/cybersource.py` and
`ecommerce/enterprise/entitlements.py` into Lean.

Conventions of the embedding:
- Python dicts of strings are association lists with unique keys
  (`Dict`), updated in place by `pySet`.
- Python exceptions are values of `PyExc`; fallible code returns
  `Except PyExc α`.
- Machine integers do not occur; Python ints are unbounded, matching `Nat`/`Int`.
- Decimal amounts that the code only ever compares or passes through are
  kept as their decimal strings, exactly as they travel in the
  form-encoded gateway messages.
-/

set_option maxRecDepth 100000

namespace EcommerceSpec

/-! ## Python exception taxonomy

Models the exception classes that the embedded code raises or catches:
built-in `KeyError` / `ValueError` / `TypeError`, the oscar payment
exception hierarchy (`PaymentError` with subclasses `UserCancelled`,
`TransactionDeclined`, `GatewayError`), the plugin exceptions of
`edx_cybersource_plugin/exceptions.py` (`InvalidSignatureError`,
`InvalidCybersourceDecision` extending `GatewayError`;
`PartialAuthorizationError` and `PCIViolation` extending `PaymentError`),
the view exception `InvalidBasketError`, and a catch-all `generic` for
any other exception. -/
inductive PyExc where
  | keyError
  | valueError
  | typeError
  | invalidBasket
  | invalidSignature
  | userCancelled
  | transactionDeclined
  | gatewayError
  | invalidCybersourceDecision
  | incompleteAuthorization
  | pciViolation
  | generic
deriving DecidableEq, Repr

deriving instance DecidableEq for Except

/-- Models `isinstance(e, PaymentError)` for the oscar exception hierarchy:
`UserCancelled`, `TransactionDeclined` and `GatewayError` are subclasses of
`PaymentError`; `InvalidSignatureError` and `InvalidCybersourceDecision`
subclass `GatewayError`; `PartialAuthorizationError`
(here `incompleteAuthorization`) and `PCIViolation` subclass `PaymentError`
(`edx_cybersource_plugin/exceptions.py`). -/
def isPaymentError : PyExc → Bool
  | .userCancelled => true
  | .transactionDeclined => true
  | .gatewayError => true
  | .invalidSignature => true
  | .invalidCybersourceDecision => true
  | .incompleteAuthorization => true
  | .pciViolation => true
  | _ => false

/-! ## Python dict and string primitives -/

/-- A Python dict with string keys and string values, as an association
list with unique keys. -/
def Dict : Type := List (String × String)

instance : DecidableEq Dict := by unfold Dict; infer_instance

instance : Append Dict := by unfold Dict; infer_instance

/-- Python `d.get(k)`: the value at key `k`, or `None` (`none`) when absent. -/
def pyGet (d : Dict) (k : String) : Option String :=
  match d with
  | [] => none
  | (k0, v0) :: rest => if k0 = k then some v0 else pyGet rest k

/-- Python `d[k] = v`: replace the value of an existing key in place, or
append a new binding. -/
def pySet (d : Dict) (k : String) (v : String) : Dict :=
  match d with
  | [] => [(k, v)]
  | (k0, v0) :: rest => if k0 = k then (k0, v) :: rest else (k0, v0) :: pySet rest k v

/-- Python `d.keys()`. -/
def keysOf (d : Dict) : List String :=
  match d with
  | [] => []
  | (k0, _) :: rest => k0 :: keysOf rest

/-- Python `d.update(e)`: apply every binding of `e` to `d` in order. -/
def dictUpdate (d : Dict) (e : Dict) : Dict :=
  match e with
  | [] => d
  | (k0, v0) :: rest => dictUpdate (pySet d k0 v0) rest

/-- Python truthiness of a dict (`not response`): empty means falsy. -/
def dictIsEmpty (d : Dict) : Bool :=
  match d with
  | [] => true
  | _ :: _ => false

/-- Lexicographic comparison of char lists by code point, the order Python
`sorted` uses on strings. -/
def lexLe : List Char → List Char → Bool
  | [], _ => true
  | _ :: _, [] => false
  | a :: as, b :: bs =>
    if a.toNat < b.toNat then true
    else if b.toNat < a.toNat then false
    else lexLe as bs

/-- String comparison by code points, as Python compares `str` values. -/
def strLe (a b : String) : Bool := lexLe a.data b.data

/-- One step of insertion sort with respect to `strLe`. -/
def insertSorted (x : String) : List String → List String
  | [] => [x]
  | y :: ys => if strLe x y then x :: y :: ys else y :: insertSorted x ys

/-- Python `sorted(keys)`: a stable sort of the list by code points. -/
def pySorted (l : List String) : List String := l.foldr insertSorted []

/-- Python `','.join(parts)`. -/
def joinComma : List String → String
  | [] => ""
  | [s] => s
  | s :: t :: rest => s ++ "," ++ joinComma (t :: rest)

/-- Splitting a char list at every comma; `splitCommaL []` is `[[]]`,
matching Python, where splitting the empty string yields one empty part. -/
def splitCommaL : List Char → List (List Char)
  | [] => [[]]
  | c :: rest =>
    match splitCommaL rest with
    | [] => [[c]]
    | g :: gs => if c = ',' then [] :: g :: gs else (c :: g) :: gs

/-- Python `s.split(',')`. -/
def pySplit (s : String) : List String := (splitCommaL s.data).map String.mk

/-- A string that contains no comma, so that it survives a
join-then-split round trip intact. -/
def commaFree (s : String) : Prop := ',' ∉ s.data

instance (s : String) : Decidable (commaFree s) := by unfold commaFree; infer_instance

/-- Python `c.lower()` for a single character (ASCII case folding, which is
all that gateway decision codes use). -/
def pyLower (s : String) : String := String.mk (s.data.map Char.toLower)

/-- Decimal digit characters, as produced by Python `str(n)`. -/
def digitChar : Nat → Char
  | 0 => '0'
  | 1 => '1'
  | 2 => '2'
  | 3 => '3'
  | 4 => '4'
  | 5 => '5'
  | 6 => '6'
  | 7 => '7'
  | 8 => '8'
  | _ => '9'

/-- Fuelled digit expansion of a natural number, most significant first. -/
def natCharsAux : Nat → Nat → List Char
  | 0, _ => []
  | fuel + 1, n => if n < 10 then [digitChar n] else natCharsAux fuel (n / 10) ++ [digitChar (n % 10)]

/-- Python `str(n)` for a non-negative int. -/
def natStr (n : Nat) : String := String.mk (natCharsAux (n + 1) n)

/-! ## Signing helper

Modelled from the spec: the module `ecommerce/edx_cybersource_plugin/helpers.py`
(the function `sign` imported by `processors.py`) is not present under
`src/`; only its test `tests/test_helpers.py` is. Spec section 4.7 states:
HMAC-SHA256 over a UTF-8 message, keyed by a UTF-8 secret, base64-encoded
result, with the test vector reproduced below in `sign_test_vector`.
The implementation below is plain SHA-256 / HMAC / base64 over byte lists,
executable by the kernel. -/

/-- Truncation to a 32-bit word. -/
def w32 (n : Nat) : Nat := n % 4294967296

/-- 32-bit modular addition. -/
def add32 (a b : Nat) : Nat := (a + b) % 4294967296

/-- 32-bit right rotation. -/
def rotr32 (n x : Nat) : Nat := (x >>> n) ||| (w32 (x <<< (32 - n)))

/-- 32-bit right shift. -/
def shr32 (n x : Nat) : Nat := x >>> n

/-- Bitwise exclusive or. -/
def xor32 (a b : Nat) : Nat := Nat.xor a b

/-- Bitwise conjunction. -/
def and32 (a b : Nat) : Nat := Nat.land a b

/-- 32-bit bitwise complement. -/
def not32 (a : Nat) : Nat := Nat.xor a 4294967295

/-- The SHA-256 round constants. -/
def sha256K : List Nat :=
  [1116352408, 1899447441, 3049323471, 3921009573, 961987163,
   1508970993, 2453635748, 2870763221, 3624381080, 310598401,
   607225278, 1426881987, 1925078388, 2162078206, 2614888103,
   3248222580, 3835390401, 4022224774, 264347078, 604807628,
   770255983, 1249150122, 1555081692, 1996064986, 2554220882,
   2821834349, 2952996808, 3210313671, 3336571891, 3584528711,
   113926993, 338241895, 666307205, 773529912, 1294757372,
   1396182291, 1695183700, 1986661051, 2177026350, 2456956037,
   2730485921, 2820302411, 3259730800, 3345764771, 3516065817,
   3600352804, 4094571909, 275423344, 430227734, 506948616,
   659060556, 883997877, 958139571, 1322822218, 1537002063,
   1747873779, 1955562222, 2024104815, 2227730452, 2361852424,
   2428436474, 2756734187, 3204031479, 3329325298]

/-- The SHA-256 initial hash state. -/
def sha256H0 : List Nat :=
  [1779033703, 3144134277, 1013904242, 2773480762, 1359893119,
   2600822924, 528734635, 1541459225]

/-- SHA-256 small sigma 0. -/
def ssig0 (x : Nat) : Nat := xor32 (xor32 (rotr32 7 x) (rotr32 18 x)) (shr32 3 x)

/-- SHA-256 small sigma 1. -/
def ssig1 (x : Nat) : Nat := xor32 (xor32 (rotr32 17 x) (rotr32 19 x)) (shr32 10 x)

/-- One message-schedule extension step, over the reversed schedule so far. -/
def schedStep (rws : List Nat) : Nat :=
  add32 (add32 (ssig1 (rws.getD 1 0)) (rws.getD 6 0)) (add32 (ssig0 (rws.getD 14 0)) (rws.getD 15 0))

/-- Extends the reversed message schedule by the given number of words. -/
def schedExtend : Nat → List Nat → List Nat
  | 0, rws => rws
  | n + 1, rws => schedExtend n (schedStep rws :: rws)

/-- One SHA-256 compression round on the eight-word working state. -/
def sha256Round (st : Nat × Nat × Nat × Nat × Nat × Nat × Nat × Nat) (kw : Nat × Nat) :
    Nat × Nat × Nat × Nat × Nat × Nat × Nat × Nat :=
  let (a, b, c, d, e, f, g, h) := st
  let s1 := xor32 (xor32 (rotr32 6 e) (rotr32 11 e)) (rotr32 25 e)
  let ch := xor32 (and32 e f) (and32 (not32 e) g)
  let t1 := add32 (add32 (add32 h s1) (add32 ch kw.1)) kw.2
  let s0 := xor32 (xor32 (rotr32 2 a) (rotr32 13 a)) (rotr32 22 a)
  let maj := xor32 (xor32 (and32 a b) (and32 a c)) (and32 b c)
  let t2 := add32 s0 maj
  (add32 t1 t2, a, b, c, add32 d t1, e, f, g)

/-- Big-endian 32-bit words from a byte list. -/
def toWordsBE : List Nat → List Nat
  | a :: b :: c :: d :: rest => (((a * 256 + b) * 256 + c) * 256 + d) :: toWordsBE rest
  | _ => []

/-- The given number of big-endian bytes of a natural number. -/
def beBytes : Nat → Nat → List Nat
  | 0, _ => []
  | n + 1, v => beBytes n (v / 256) ++ [v % 256]

/-- SHA-256 compression of one 64-byte block into the hash state. -/
def sha256Block (h : List Nat) (block : List Nat) : List Nat :=
  let w16 := toWordsBE block
  let w := (schedExtend 48 w16.reverse).reverse
  let init : Nat × Nat × Nat × Nat × Nat × Nat × Nat × Nat :=
    (h.getD 0 0, h.getD 1 0, h.getD 2 0, h.getD 3 0, h.getD 4 0, h.getD 5 0, h.getD 6 0, h.getD 7 0)
  let fin := (sha256K.zip w).foldl sha256Round init
  let (a, b, c, d, e, f, g, h8) := fin
  [add32 (h.getD 0 0) a, add32 (h.getD 1 0) b, add32 (h.getD 2 0) c, add32 (h.getD 3 0) d,
   add32 (h.getD 4 0) e, add32 (h.getD 5 0) f, add32 (h.getD 6 0) g, add32 (h.getD 7 0) h8]

/-- Splits a byte list into the given number of 64-byte chunks. -/
def chunksOf64 : Nat → List Nat → List (List Nat)
  | 0, _ => []
  | n + 1, l => l.take 64 :: chunksOf64 n (l.drop 64)

/-- SHA-256 padding: one `0x80` byte, zeros, then the bit length in 8
big-endian bytes, to a multiple of 64 bytes. -/
def sha256Pad (msg : List Nat) : List Nat :=
  let padZeros := (119 - msg.length % 64) % 64
  msg ++ [0x80] ++ List.replicate padZeros 0 ++ beBytes 8 (msg.length * 8)

/-- SHA-256 of a byte list, as 32 bytes. -/
def sha256 (msg : List Nat) : List Nat :=
  let padded := sha256Pad msg
  let blocks := chunksOf64 (padded.length / 64) padded
  ((blocks.foldl sha256Block sha256H0).map (beBytes 4)).flatten

/-- HMAC-SHA256 of a byte-list message under a byte-list key. -/
def hmacSha256 (key msg : List Nat) : List Nat :=
  let k0 := if key.length > 64 then sha256 key else key
  let kp := k0 ++ List.replicate (64 - k0.length) 0
  sha256 ((kp.map (Nat.xor 0x5c)) ++ sha256 ((kp.map (Nat.xor 0x36)) ++ msg))

/-- The base64 alphabet. -/
def b64Alphabet : List Char :=
  "ABCDEFGHIJKLMNOPQRSTUVWXYZabcdefghijklmnopqrstuvwxyz0123456789+/".data

/-- The base64 character of a 6-bit value. -/
def b64c (n : Nat) : Char := b64Alphabet.getD n 'A'

/-- Standard base64 encoding with padding. -/
def b64encode : List Nat → List Char
  | a :: b :: c :: rest =>
    b64c (a / 4) :: b64c ((a % 4) * 16 + b / 16) :: b64c ((b % 16) * 4 + c / 64) :: b64c (c % 64) ::
      b64encode rest
  | [a, b] => [b64c (a / 4), b64c ((a % 4) * 16 + b / 16), b64c ((b % 16) * 4), '=']
  | [a] => [b64c (a / 4), b64c ((a % 4) * 16), '=', '=']
  | [] => []

/-- UTF-8 bytes of one character. -/
def utf8Char (c : Char) : List Nat :=
  let n := c.toNat
  if n < 0x80 then [n]
  else if n < 0x800 then [0xC0 ||| (n >>> 6), 0x80 ||| (Nat.land n 0x3F)]
  else if n < 0x10000 then
    [0xE0 ||| (n >>> 12), 0x80 ||| (Nat.land (n >>> 6) 0x3F), 0x80 ||| (Nat.land n 0x3F)]
  else
    [0xF0 ||| (n >>> 18), 0x80 ||| (Nat.land (n >>> 12) 0x3F), 0x80 ||| (Nat.land (n >>> 6) 0x3F),
     0x80 ||| (Nat.land n 0x3F)]

/-- UTF-8 bytes of a string. -/
def utf8 (s : String) : List Nat := (s.data.map utf8Char).flatten

/-- Modelled from the spec: `helpers.sign(message, secret)` of the missing
module `ecommerce/edx_cybersource_plugin/helpers.py` — HMAC-SHA256 over the
UTF-8 message, keyed by the UTF-8 secret, base64-encoded. -/
def sign (message secret : String) : String :=
  String.mk (b64encode (hmacSha256 (utf8 secret) (utf8 message)))

/-! ## `edx_cybersource_plugin/constants.py` -/

/-- `CYBERSOURCE_CARD_TYPE_MAP` of `constants.py`. -/
def CYBERSOURCE_CARD_TYPE_MAP : Dict :=
  [("001", "visa"), ("002", "mastercard"), ("003", "american_express"), ("004", "discover")]

/-! ## `edx_cybersource_plugin/processors.py` — `CybersourceMixin` -/

/-- `CybersourceMixin.PCI_FIELDS`. -/
def PCI_FIELDS : List String := ["card_cvn", "card_expiry_date", "card_number", "card_type"]

/-- One basket line, carrying exactly the attributes `_generate_parameters`
reads. All money amounts appear as their decimal strings (the Python code
applies `str` to them when building the dict); `quantity` is an int. -/
structure Line where
  productClassSlug : String
  productTitle : String
  discountValue : String
  quantity : Nat
  partnerSku : String
  lineTax : String
  linePriceInclTaxInclDiscounts : String
  unitPriceInclTax : String

/-- The basket attributes read by `_generate_parameters`. -/
structure Basket where
  orderNumber : String
  totalInclTax : String
  currency : String
  ownerUsername : String
  siteName : String
  lines : List Line

/-- The processor configuration attributes read by the parameter
generation path of `CybersourceMixin`. -/
structure CybersourceConfig where
  accessKey : String
  profileId : String
  secretKey : String
  languageCode : String
  sendLevel23 : Bool

/-- The key `item_{index}_{suffix}` of a level-2/3 line-item field. Two of
the suffixes used by the source carry a trailing blank, an idiosyncrasy the
model preserves. -/
def itemKey (i : Nat) (suffix : String) : String := "item_" ++ natStr i ++ "_" ++ suffix

/-- The eleven `parameters['item_{}_...'] = ...` assignments done for one
basket line (processors.py lines 120-133), in source order. Int values are
stored through `natStr`, matching their later `str` formatting. -/
def lineParams (d : Dict) (i : Nat) (l : Line) : Dict :=
  pySet (pySet (pySet (pySet (pySet (pySet (pySet (pySet (pySet (pySet (pySet d
    (itemKey i "code") l.productClassSlug)
    (itemKey i "discount_amount ") l.discountValue)
    (itemKey i "gross_net_indicator") "Y")
    (itemKey i "name") l.productTitle)
    (itemKey i "quantity") (natStr l.quantity))
    (itemKey i "sku") l.partnerSku)
    (itemKey i "tax_amount") l.lineTax)
    (itemKey i "tax_rate") "0")
    (itemKey i "total_amount ") l.linePriceInclTaxInclDiscounts)
    (itemKey i "unit_of_measure") "ITM")
    (itemKey i "unit_price") l.unitPriceInclTax

/-- The `for index, line in enumerate(basket.lines.all())` loop of
`_generate_parameters`. -/
def addLineItems : Dict → Nat → List Line → Dict
  | d, _, [] => d
  | d, i, l :: ls => addLineItems (lineParams d i l) (i + 1) ls

/-- The parameter dict `_generate_parameters` builds before the PCI guard:
the base dict literal (processors.py lines 96-109), the level-2/3 fields
when `send_level_2_3_details` is set (lines 112-133), then
`parameters.update(extra_parameters)` (line 136). `transaction_uuid` and
`signed_date_time` are the random uuid hex and the formatted UTC timestamp,
nondeterministic inputs passed in explicitly. -/
def preParams (cfg : CybersourceConfig) (basket : Basket)
    (transactionUuid signedDateTime : String) (extra : Dict) : Dict :=
  let base : Dict :=
    [("access_key", cfg.accessKey),
     ("profile_id", cfg.profileId),
     ("transaction_uuid", transactionUuid),
     ("signed_field_names", ""),
     ("unsigned_field_names", ""),
     ("signed_date_time", signedDateTime),
     ("locale", cfg.languageCode),
     ("transaction_type", "sale"),
     ("reference_number", basket.orderNumber),
     ("amount", basket.totalInclTax),
     ("currency", basket.currency),
     ("consumer_id", basket.ownerUsername)]
  let withLevel23 :=
    if cfg.sendLevel23 then
      addLineItems
        (pySet (pySet (pySet (pySet base
          "amex_data_taa1" basket.siteName)
          "purchasing_level" "3")
          "line_item_count" (natStr basket.lines.length))
          "user_po" "BLANK")
        0 basket.lines
    else base
  dictUpdate withLevel23 extra

/-- `CybersourceMixin._generate_parameters`: builds the parameter dict and
then applies the PCI guard (processors.py lines 138-142), raising
`PCIViolation` when any of `PCI_FIELDS` occurs among the keys. -/
def generate_parameters (cfg : CybersourceConfig) (basket : Basket)
    (transactionUuid signedDateTime : String) (extra : Dict) : Except PyExc Dict :=
  let parameters := preParams cfg basket transactionUuid signedDateTime extra
  if PCI_FIELDS.any (fun f => decide (f ∈ keysOf parameters)) then
    .error .pciViolation
  else
    .ok parameters

/-- The message `_generate_signature` signs for a given value of
`signed_field_names`: each listed key joined as `key=value` with commas,
values looked up with `parameters.get(key)` (absent keys format as the
string `None`). -/
def messageFor (d : Dict) (sfn : String) : String :=
  joinComma ((pySplit sfn).map fun k => k ++ "=" ++ ((pyGet d k).getD "None"))

/-- `CybersourceMixin._generate_signature` (processors.py lines 199-223):
reads `parameters[signed_field_names]` (a `KeyError` when absent), splits
it on commas and signs the ordered `key=value` join with the secret key. -/
def generate_signature (secretKey : String) (d : Dict) : Except PyExc String :=
  match pyGet d "signed_field_names" with
  | none => .error .keyError
  | some sfn => .ok (sign (messageFor d sfn) secretKey)

/-- The message `_generate_signature` computes on a dict that does have a
`signed_field_names` key (helper used to state tamper detection). -/
def messageOf (d : Dict) : String :=
  messageFor d ((pyGet d "signed_field_names").getD "")

/-- `CybersourceMixin.is_signature_valid` (processors.py lines 225-227):
falsy for an empty response, otherwise compares the recomputed signature
with `response.get(signature)`. A missing `signed_field_names` key
propagates as a `KeyError`, as in the source. -/
def is_signature_valid (secretKey : String) (d : Dict) : Except PyExc Bool :=
  if dictIsEmpty d then .ok false
  else
    match generate_signature secretKey d with
    | .error e => .error e
    | .ok s =>
      .ok (match pyGet d "signature" with
           | some t => decide (s = t)
           | none => false)

/-- `CybersourceMixin.get_transaction_parameters` (processors.py lines
57-80): generate the parameters, set `signed_field_names` to the
comma-joined sorted key list, then store the computed signature under
`signature`. -/
def get_transaction_parameters (cfg : CybersourceConfig) (basket : Basket)
    (transactionUuid signedDateTime : String) (extra : Dict) : Except PyExc Dict :=
  match generate_parameters cfg basket transactionUuid signedDateTime extra with
  | .error e => .error e
  | .ok parameters =>
    let p1 := pySet parameters "signed_field_names" (joinComma (pySorted (keysOf parameters)))
    match generate_signature cfg.secretKey p1 with
    | .error e => .error e
    | .ok sig => .ok (pySet p1 "signature" sig)

/-- The successful result of `handle_processor_response`: transaction id,
total (the decimal string `req_amount`, which the source wraps in
`Decimal`), currency, masked card number, and the optional card-type
label. -/
def HandledTuple : Type := String × String × String × String × Option String

instance : DecidableEq HandledTuple := by unfold HandledTuple; infer_instance

/-- `CybersourceMixin.handle_processor_response` (processors.py lines
146-197): validate the signature, read `decision` case-insensitively and
map `cancel` / `decline` / `error` / unknown to their exceptions, reject a
mismatch of `auth_amount` versus `req_amount` as a partial authorization,
and otherwise return the success tuple, with the card type looked up in
`CYBERSOURCE_CARD_TYPE_MAP`. Missing keys raise `KeyError`, as the direct
subscriptions do in the source. -/
def handle_processor_response (secretKey : String) (response : Dict) :
    Except PyExc HandledTuple :=
  match is_signature_valid secretKey response with
  | .error e => .error e
  | .ok false => .error .invalidSignature
  | .ok true =>
    match pyGet response "decision" with
    | none => .error .keyError
    | some d0 =>
      let decision := pyLower d0
      if decision ≠ "accept" then
        .error (if decision = "cancel" then .userCancelled
                else if decision = "decline" then .transactionDeclined
                else if decision = "error" then .gatewayError
                else .invalidCybersourceDecision)
      else
        match pyGet response "auth_amount", pyGet response "req_amount" with
        | some a, some r =>
          if a ≠ r then .error .incompleteAuthorization
          else
            match pyGet response "req_currency", pyGet response "transaction_id",
                  pyGet response "req_card_number", pyGet response "req_card_type" with
            | some currency, some transactionId, some cardNumber, some cardType =>
              .ok (transactionId, r, currency, cardNumber, pyGet CYBERSOURCE_CARD_TYPE_MAP cardType)
            | _, _, _, _ => .error .keyError
        | _, _ => .error .keyError

/-! ## `extensions/payment/utils.py` -/

/-- Python `string[-n:]` on the char level: for `n = 0` this is `string[0:]`,
the whole string, because `-0 == 0`; for positive `n` it is the last `n`
characters (clamped). -/
def pySliceLast (s : String) (n : Nat) : String :=
  if n = 0 then s else String.mk (s.data.drop (s.data.length - n))

/-- Python `string[:n]`. -/
def pySliceFirst (s : String) (n : Nat) : String := String.mk (s.data.take n)

/-- `middle_truncate(string, chars)` of `extensions/payment/utils.py` lines
17-52: unchanged when it fits; `ValueError` when truncation is needed and
`chars` is below the indicator length 3; otherwise the first and last
`(chars - 3) / 2` characters around the three-dot indicator (Python 2
integer division). The `string[-slice_size:]` slice is taken with Python
semantics, where a zero `slice_size` selects the whole string. -/
def middle_truncate (s : String) (chars : Nat) : Except PyExc String :=
  if s.length ≤ chars then .ok s
  else if chars < 3 then .error .valueError
  else
    let slice_size := (chars - 3) / 2
    .ok (pySliceFirst s slice_size ++ "..." ++ pySliceLast s slice_size)

/-- An `SDNCheckFailure` row, with the fields of migration
`0013_sdncheckfailure.py`: full name, address, country, raw response
content, and the basket foreign key. -/
structure SDNCheckFailure where
  full_name : String
  address : String
  country : String
  sdn_check_response : String
  basket : Nat
deriving DecidableEq, Repr

/-- The SDN screening API response as `sdn_check` consumes it:
`response.status_code`, the raw `response.content`, and the parsed
`json.loads(response.content)[total]` match count. -/
structure SdnApiResponse where
  status_code : Nat
  content : String
  total : Int

/-- `sdn_check(request, full_name, address, country)` of
`extensions/payment/utils.py` lines 69-103. The HTTP call is the passed-in
`resp`; `basket` is the id of the requester resolved basket; `db` is the
stored list of `SDNCheckFailure` rows, returned updated alongside the
boolean result. -/
def sdn_check (basket : Nat) (full_name address country : String)
    (resp : SdnApiResponse) (db : List SDNCheckFailure) : Bool × List SDNCheckFailure :=
  if resp.status_code ≠ 200 then (true, db)
  else if resp.total = 0 then (true, db)
  else (false, db ++ [⟨full_name, address, country, resp.content, basket⟩])

/-! ## `extensions/payment/views/cybersource.py` -/

/-- The three response shapes `CybersourceSubmitView.form_valid` can
produce: the basket-state 400 error, the SDN-failure 400 error, and the
signed-parameter JSON payload. -/
inductive SubmitResult where
  | basketError400
  | sdnError400
  | paramsJson (params : Dict)
deriving DecidableEq

/-- `CybersourceSubmitView.form_valid` (views/cybersource.py lines 84-136)
for a form that already validated, up to the SDN screening step. The view
first rejects a basket that is not `Open` with the 400 basket error. It
then builds `full_name` and calls `sdn_check(request, full_name,
data[country])` — three positional arguments, while
`extensions/payment/utils.py` defines `sdn_check(request, full_name,
address, country)` with four required parameters. That call therefore
raises `TypeError` before any screening happens, modelled here as the
`typeError` outcome; the SDN 400 branch and the parameter generation below
it are unreachable. -/
def cybersource_submit_form_valid (basketStatus : String)
    (firstName lastName country : String) : Except PyExc SubmitResult :=
  if basketStatus ≠ "Open" then .ok .basketError400
  else
    let _full_name := firstName ++ " " ++ lastName
    let _country := country
    .error .typeError

/-- The HTTP status Django produces for a view outcome: an uncaught
exception becomes a 500 response, the error results carry status 400, and
the JSON parameter payload is a 200. -/
def djangoStatus : Except PyExc SubmitResult → Nat
  | .error _ => 500
  | .ok .basketError400 => 400
  | .ok .sdnError400 => 400
  | .ok (.paramsJson _) => 200

/-- Observable events of the notification flow, in execution order:
resolving the basket, recording the raw notification via
`record_processor_response` (with the basket it resolved, if any), and
validating via `handle_payment`. -/
inductive Event where
  | resolveBasket
  | record (notification : Dict) (basket : Option Nat)
  | handlePayment (notification : Dict)
deriving DecidableEq

/-- `CybersourceNotificationMixin.validate_notification`
(views/cybersource.py lines 184-243) as a trace semantics. `basketRes` is
the result of `self._get_basket(...)` (`none` both when the id does not
resolve and when `_get_basket` returns `None`); `hp` is the outcome of
`self.handle_payment(notification, basket)`. The `try/finally` records the
notification even when `InvalidBasketError` is raised, so `record` appears
on every path; `handle_payment` runs only afterwards, inside the atomic
block, and its exceptions are logged and re-raised. -/
def validate_notification (notification : Dict) (basketRes : Option Nat)
    (hp : Dict → Nat → Except PyExc Unit) : List Event × Except PyExc Nat :=
  match basketRes with
  | none =>
    ([.resolveBasket, .record notification none], .error .invalidBasket)
  | some b =>
    match hp notification b with
    | .ok _ =>
      ([.resolveBasket, .record notification (some b), .handlePayment notification], .ok b)
    | .error e =>
      ([.resolveBasket, .record notification (some b), .handlePayment notification], .error e)

/-- `CybersourceNotifyView.post` (views/cybersource.py lines 279-296):
`InvalidBasketError` and `InvalidSignatureError` give a 400;
`UserCancelled`, `TransactionDeclined` and any other `PaymentError` give an
empty 200 response; any other exception gives a 500; on success,
`create_order` (outcome `co`) gives a 200, and a failure inside it a
500. -/
def notify_post (notification : Dict) (basketRes : Option Nat)
    (hp : Dict → Nat → Except PyExc Unit) (co : Nat → Except PyExc Unit) : Nat :=
  match (validate_notification notification basketRes hp).2 with
  | .error e =>
    if e = .invalidBasket ∨ e = .invalidSignature then 400
    else if isPaymentError e then 200
    else 500
  | .ok b =>
    match co b with
    | .ok _ => 200
    | .error _ => 500

/-! ## `enterprise/entitlements.py` -/

/-- The raw cache key string
built by formatting domain, partner code and resource into
`dom_partner_resource.api.data` in `get_enterprise_learner_data`, with
resource fixed to `enterprise-learner`.
Note that the learner is not part of it. -/
def enterpriseCacheKeyRaw (domain partnerCode : String) : String :=
  domain ++ "_" ++ partnerCode ++ "_" ++ "enterprise-learner" ++ ".api.data"

/-- `get_enterprise_learner_data(site, learner)` of
`enterprise/entitlements.py` lines 111-195, parameterized over the response
type `α`, the md5 hexdigest function, the cache contents, Python
truthiness of a response, and the Enterprise Service call (a function of
the learner username it filters by). Returns the response together with
the cache writes performed. A cached truthy response is returned as is;
otherwise the service is queried and the result cached. -/
def get_enterprise_learner_data {α : Type} (md5hex : String → String)
    (cache : String → Option α) (truthy : α → Bool) (fetch : String → α)
    (domain partnerCode username : String) : α × List (String × α) :=
  let cacheKey := md5hex (enterpriseCacheKeyRaw domain partnerCode)
  match cache cacheKey with
  | some response =>
    if truthy response then (response, [])
    else
      let fetched := fetch username
      (fetched, [(cacheKey, fetched)])
  | none =>
    let fetched := fetch username
    (fetched, [(cacheKey, fetched)])

/-! ## Named key lists and concrete test fixtures -/

/-- The keys of the base parameter dict literal of `_generate_parameters`
(processors.py lines 96-109). -/
def paramBaseKeys : List String :=
  ["access_key", "profile_id", "transaction_uuid", "signed_field_names",
   "unsigned_field_names", "signed_date_time", "locale", "transaction_type",
   "reference_number", "amount", "currency", "consumer_id"]

/-- The site-level level-2/3 keys (processors.py lines 113-118). -/
def level23Keys : List String :=
  ["amex_data_taa1", "purchasing_level", "line_item_count", "user_po"]

/-- The per-line key suffixes of the level-2/3 item fields, two of which
carry their trailing blank from the source. -/
def itemSuffixes : List String :=
  ["code", "discount_amount ", "gross_net_indicator", "name", "quantity",
   "sku", "tax_amount", "tax_rate", "total_amount ", "unit_of_measure", "unit_price"]

/-- A concrete processor configuration (level-2/3 details disabled). -/
def testConfig : CybersourceConfig := ⟨"acc123", "prof456", "topsecretkey", "en", false⟩

/-- A concrete basket. -/
def testBasket : Basket := ⟨"EDX-100001", "99.99", "USD", "learner", "Test Site", []⟩

/-- A fixed transaction uuid input. -/
def testUuid : String := "deadbeef"

/-- A fixed signed date time input. -/
def testDt : String := "2017-01-01T00:00:00Z"

/-- The parameter set produced for the concrete fixture with no extra
parameters. -/
def c2ps : Dict :=
  match get_transaction_parameters testConfig testBasket testUuid testDt [] with
  | .ok d => d
  | .error _ => []

/-- A concrete gateway response, before its signature is attached:
decision `ACCEPT` with matching amounts. -/
def c3resp0 : Dict :=
  [("decision", "ACCEPT"), ("auth_amount", "99.99"), ("req_amount", "99.99"),
   ("req_currency", "USD"), ("transaction_id", "TX0001"),
   ("req_card_number", "xxxxxxxxxxxx1111"), ("req_card_type", "001"),
   ("signed_field_names", "decision,req_amount,transaction_id")]

/-- The valid signature of `c3resp0` under the secret `sekrit`. -/
def c3sig : String :=
  match generate_signature "sekrit" c3resp0 with
  | .ok s => s
  | .error _ => ""

/-- The concrete accept response with its valid signature attached. -/
def c3resp : Dict := pySet c3resp0 "signature" c3sig

/-- A concrete cancel response, before its signature is attached. -/
def c3cancel0 : Dict :=
  [("decision", "CANCEL"), ("signed_field_names", "decision")]

/-- The valid signature of `c3cancel0` under the secret `sekrit`. -/
def c3cancelSig : String :=
  match generate_signature "sekrit" c3cancel0 with
  | .ok s => s
  | .error _ => ""

/-- The concrete cancel response with its valid signature attached. -/
def c3cancel : Dict := pySet c3cancel0 "signature" c3cancelSig

/-- A concrete accept response whose authorized amount differs from the
requested amount by one cent, before its signature is attached. -/
def c4resp0 : Dict :=
  [("decision", "accept"), ("auth_amount", "100.00"), ("req_amount", "99.99"),
   ("signed_field_names", "auth_amount,decision,req_amount")]

/-- The valid signature of `c4resp0` under the secret `sekrit`. -/
def c4sig : String :=
  match generate_signature "sekrit" c4resp0 with
  | .ok s => s
  | .error _ => ""

/-- The concrete one-cent-short response with its valid signature. -/
def c4resp : Dict := pySet c4resp0 "signature" c4sig

/-- A concrete enterprise cache holding a response under the cache key of
site `example.com`, partner `edx`. -/
def c10cache : String → Option String :=
  fun k => if k = "example.com_edx_enterprise-learner.api.data" then some "cached-payload" else none

/-- A concrete Enterprise Service call whose result depends on the
learner. -/
def c10fetch : String → String := fun username => "fetched-for-" ++ username

/-! ## Helper lemmas: dict operations -/

theorem pyGet_pySet_self (d : Dict) (k v : String) : pyGet (pySet d k v) k = some v := by
  induction d with
  | nil => simp [pySet, pyGet]
  | cons hd tl ih =>
    obtain ⟨k0, v0⟩ := hd
    by_cases h : k0 = k
    · simp [pySet, pyGet, h]
    · simp [pySet, pyGet, h, ih]

theorem pyGet_pySet_ne (d : Dict) (k v k2 : String) (h : k2 ≠ k) :
    pyGet (pySet d k v) k2 = pyGet d k2 := by
  induction d with
  | nil =>
    simp only [pySet, pyGet]
    rw [if_neg (fun hh : k = k2 => h hh.symm)]
  | cons hd tl ih =>
    obtain ⟨k0, v0⟩ := hd
    simp only [pySet]
    by_cases h0 : k0 = k
    · rw [if_pos h0]
      have hk02 : ¬(k0 = k2) := fun hh => h (hh.symm.trans h0)
      simp only [pyGet]
      rw [if_neg hk02, if_neg hk02]
    · rw [if_neg h0]
      simp only [pyGet]
      by_cases h2 : k0 = k2
      · rw [if_pos h2, if_pos h2]
      · rw [if_neg h2, if_neg h2, ih]

theorem keysOf_pySet (d : Dict) (k v : String) :
    keysOf (pySet d k v) = if k ∈ keysOf d then keysOf d else keysOf d ++ [k] := by
  induction d with
  | nil => simp [pySet, keysOf]
  | cons hd tl ih =>
    obtain ⟨k0, v0⟩ := hd
    by_cases h0 : k0 = k
    · subst h0
      simp [pySet, keysOf]
    · simp only [pySet, if_neg h0, keysOf, ih]
      by_cases hm : k ∈ keysOf tl
      · rw [if_pos hm, if_pos (List.mem_cons_of_mem k0 hm)]
      · have hne : ¬k ∈ k0 :: keysOf tl := by
          intro hk
          rcases List.mem_cons.mp hk with hk | hk
          · exact h0 hk.symm
          · exact hm hk
        rw [if_neg hm, if_neg hne, List.cons_append]

theorem mem_keysOf_pySet (d : Dict) (k v k2 : String) (h : k2 ∈ keysOf (pySet d k v)) :
    k2 ∈ keysOf d ∨ k2 = k := by
  rw [keysOf_pySet] at h
  by_cases hm : k ∈ keysOf d
  · rw [if_pos hm] at h
    exact Or.inl h
  · rw [if_neg hm] at h
    rcases List.mem_append.mp h with h2 | h2
    · exact Or.inl h2
    · exact Or.inr (List.mem_singleton.mp h2)

theorem nodup_keysOf_pySet (d : Dict) (k v : String) (h : (keysOf d).Nodup) :
    (keysOf (pySet d k v)).Nodup := by
  rw [keysOf_pySet]
  by_cases hm : k ∈ keysOf d
  · rwa [if_pos hm]
  · rw [if_neg hm]
    refine h.append (List.nodup_singleton k) ?_
    intro a ha hb
    rw [List.mem_singleton] at hb
    exact hm (hb ▸ ha)

theorem dictIsEmpty_pySet (d : Dict) (k v : String) : dictIsEmpty (pySet d k v) = false := by
  cases d with
  | nil => rfl
  | cons hd tl =>
    obtain ⟨k0, v0⟩ := hd
    by_cases h : k0 = k <;> simp [pySet, h, dictIsEmpty]

theorem pyGet_dictUpdate_not_mem (d e : Dict) (k : String) (h : k ∉ keysOf e) :
    pyGet (dictUpdate d e) k = pyGet d k := by
  induction e generalizing d with
  | nil => rfl
  | cons hd tl ih =>
    obtain ⟨k0, v0⟩ := hd
    have h1 : k0 ≠ k := fun hh => h (by simp [keysOf, hh])
    have h2 : k ∉ keysOf tl := fun hh => h (by simp [keysOf, hh])
    simp only [dictUpdate]
    rw [ih (pySet d k0 v0) h2, pyGet_pySet_ne d k0 v0 k (fun hh => h1 hh.symm)]

theorem mem_keysOf_dictUpdate (d e : Dict) (k : String) (h : k ∈ keysOf (dictUpdate d e)) :
    k ∈ keysOf d ∨ k ∈ keysOf e := by
  induction e generalizing d with
  | nil => exact Or.inl h
  | cons hd tl ih =>
    obtain ⟨k0, v0⟩ := hd
    simp only [dictUpdate] at h
    rcases ih (pySet d k0 v0) h with hm | hm
    · rcases mem_keysOf_pySet d k0 v0 k hm with hm2 | hm2
      · exact Or.inl hm2
      · exact Or.inr (by simp [keysOf, hm2])
    · exact Or.inr (by simp [keysOf, hm])

theorem nodup_keysOf_dictUpdate (d e : Dict) (h : (keysOf d).Nodup) :
    (keysOf (dictUpdate d e)).Nodup := by
  induction e generalizing d with
  | nil => exact h
  | cons hd tl ih =>
    obtain ⟨k0, v0⟩ := hd
    exact ih (pySet d k0 v0) (nodup_keysOf_pySet d k0 v0 h)

/-! ## Helper lemmas: sorting is a permutation -/

theorem insertSorted_perm (x : String) (l : List String) :
    List.Perm (insertSorted x l) (x :: l) := by
  induction l with
  | nil => exact List.Perm.refl _
  | cons y ys ih =>
    by_cases h : strLe x y
    · simp only [insertSorted, if_pos h]
      exact List.Perm.refl _
    · simp only [insertSorted, if_neg h]
      exact (ih.cons y).trans (List.Perm.swap x y ys)

theorem pySorted_perm (l : List String) : List.Perm (pySorted l) l := by
  induction l with
  | nil => exact List.Perm.refl _
  | cons y ys ih =>
    exact (insertSorted_perm y (pySorted ys)).trans (ih.cons y)

theorem mem_pySorted (l : List String) (k : String) : k ∈ pySorted l ↔ k ∈ l :=
  (pySorted_perm l).mem_iff

theorem nodup_pySorted (l : List String) (h : l.Nodup) : (pySorted l).Nodup :=
  (pySorted_perm l).nodup_iff.mpr h

theorem pySorted_ne_nil (l : List String) (h : l ≠ []) : pySorted l ≠ [] := by
  intro hc
  exact h ((hc ▸ (pySorted_perm l).symm).eq_nil)

/-! ## Helper lemmas: strings, join and split -/

theorem stringEq_of_data (s t : String) (h : s.data = t.data) : s = t := by
  cases s; cases t; exact congrArg String.mk h

theorem stringMk_data (s : String) : String.mk s.data = s := by
  cases s; rfl

theorem strAppend_data (s t : String) : (s ++ t).data = s.data ++ t.data :=
  String.data_append s t

theorem strAppend_cancel_left (a b c : String) (h : a ++ b = a ++ c) : b = c := by
  apply stringEq_of_data
  have hd := congrArg String.data h
  rw [strAppend_data, strAppend_data] at hd
  exact List.append_cancel_left hd

theorem strAppend_cancel_right (a b c : String) (h : a ++ c = b ++ c) : a = b := by
  apply stringEq_of_data
  have hd := congrArg String.data h
  rw [strAppend_data, strAppend_data] at hd
  exact List.append_cancel_right hd

theorem listAppend_eq_hAppend (as bs : List Char) : as.append bs = as ++ bs := rfl

theorem splitCommaL_ne_nil (l : List Char) : splitCommaL l ≠ [] := by
  cases l with
  | nil => simp [splitCommaL]
  | cons c rest =>
    cases h : splitCommaL rest with
    | nil => simp [splitCommaL, h]
    | cons g gs => by_cases hc : c = ',' <;> simp [splitCommaL, h, hc]

theorem splitCommaL_append (g rest : List Char) (hg : ∀ c ∈ g, c ≠ ',') :
    splitCommaL (g ++ rest) =
      (g ++ (splitCommaL rest).headD []) :: (splitCommaL rest).tail := by
  induction g with
  | nil =>
    cases h : splitCommaL rest with
    | nil => exact absurd h (splitCommaL_ne_nil rest)
    | cons x xs => simp [h]
  | cons c g2 ih =>
    have hc : c ≠ ',' := hg c (by simp)
    have hg2 : ∀ x ∈ g2, x ≠ ',' := fun x hx => hg x (by simp [hx])
    rw [List.cons_append]
    simp only [splitCommaL, listAppend_eq_hAppend, ih hg2, if_neg hc, List.cons_append]

theorem joinComma_cons (s : String) (l : List String) (h : l ≠ []) :
    joinComma (s :: l) = s ++ "," ++ joinComma l := by
  cases l with
  | nil => exact absurd rfl h
  | cons t rest => rfl

theorem commaFree_chars (s : String) (h : commaFree s) : ∀ c ∈ s.data, c ≠ ',' := by
  intro c hc he
  exact h (he ▸ hc)

theorem commaData : (",".data : List Char) = [','] := rfl

theorem splitCommaL_joinComma (ks : List String) (hne : ks ≠ [])
    (hcf : ∀ k ∈ ks, commaFree k) :
    splitCommaL (joinComma ks).data = ks.map String.data := by
  induction ks with
  | nil => exact absurd rfl hne
  | cons k tl ih =>
    cases tl with
    | nil =>
      have h1 := splitCommaL_append k.data [] (commaFree_chars k (hcf k (by simp)))
      simp only [List.append_nil, splitCommaL, List.headD, List.tail] at h1
      simpa [joinComma] using h1
    | cons t rest =>
      have htl : (t :: rest : List String) ≠ [] := by simp
      have hcf2 : ∀ x ∈ t :: rest, commaFree x := fun x hx => hcf x (by simp [hx])
      rw [joinComma_cons k (t :: rest) htl]
      have hdata : (k ++ "," ++ joinComma (t :: rest)).data =
          k.data ++ (',' :: (joinComma (t :: rest)).data) := by
        rw [strAppend_data, strAppend_data, commaData]
        simp
      rw [hdata, splitCommaL_append k.data _ (commaFree_chars k (hcf k (by simp)))]
      have hsplit : splitCommaL (',' :: (joinComma (t :: rest)).data) =
          [] :: splitCommaL (joinComma (t :: rest)).data := by
        cases h : splitCommaL (joinComma (t :: rest)).data with
        | nil => exact absurd h (splitCommaL_ne_nil _)
        | cons g gs => simp [splitCommaL, h]
      rw [hsplit, ih htl hcf2]
      simp

theorem pySplit_joinComma (ks : List String) (hne : ks ≠ [])
    (hcf : ∀ k ∈ ks, commaFree k) : pySplit (joinComma ks) = ks := by
  unfold pySplit
  rw [splitCommaL_joinComma ks hne hcf, List.map_map]
  have hid : (String.mk ∘ String.data) = id := by
    funext s
    simp [stringMk_data]
  rw [hid, List.map_id]

theorem joinComma_ne_at (P S : List String) (x y : String) (hxy : x ≠ y) :
    joinComma (P ++ x :: S) ≠ joinComma (P ++ y :: S) := by
  induction P with
  | nil =>
    cases S with
    | nil => simpa [joinComma] using hxy
    | cons s ss =>
      intro h
      simp only [List.nil_append] at h
      rw [joinComma_cons x (s :: ss) (by simp), joinComma_cons y (s :: ss) (by simp)] at h
      exact hxy (strAppend_cancel_right _ _ _ (strAppend_cancel_right _ _ _ h))
  | cons p P2 ih =>
    intro h
    simp only [List.cons_append] at h
    rw [joinComma_cons p (P2 ++ x :: S) (by simp), joinComma_cons p (P2 ++ y :: S) (by simp)] at h
    exact ih (strAppend_cancel_left _ _ _ h)


/-! ## Helper lemmas: digits and item keys -/

theorem digitChar_ne_comma (n : Nat) : digitChar n ≠ ',' := by
  unfold digitChar
  split <;> decide

theorem comma_not_mem_natCharsAux (fuel n : Nat) : ',' ∉ natCharsAux fuel n := by
  induction fuel generalizing n with
  | zero => simp [natCharsAux]
  | succ f ih =>
    simp only [natCharsAux]
    by_cases h : n < 10
    · rw [if_pos h]
      intro hmem
      exact digitChar_ne_comma n (List.mem_singleton.mp hmem).symm
    · rw [if_neg h]
      intro hmem
      rcases List.mem_append.mp hmem with hm | hm
      · exact ih (n / 10) hm
      · exact digitChar_ne_comma (n % 10) (List.mem_singleton.mp hm).symm

theorem commaFree_natStr (n : Nat) : commaFree (natStr n) :=
  comma_not_mem_natCharsAux (n + 1) n

theorem itemKey_data (i : Nat) (suffix : String) :
    (itemKey i suffix).data =
      'i' :: 't' :: 'e' :: 'm' :: '_' :: ((natStr i).data ++ '_' :: suffix.data) := by
  unfold itemKey
  rw [strAppend_data, strAppend_data, strAppend_data]
  have h1 : ("item_".data : List Char) = ['i', 't', 'e', 'm', '_'] := rfl
  have h2 : ("_".data : List Char) = ['_'] := rfl
  rw [h1, h2]
  simp [List.append_assoc]

theorem commaFree_itemKey (i : Nat) (suffix : String) (h : commaFree suffix) :
    commaFree (itemKey i suffix) := by
  unfold commaFree
  rw [itemKey_data]
  intro hmem
  simp only [List.mem_cons] at hmem
  rcases hmem with hm | hm | hm | hm | hm | hm
  · exact absurd hm (by decide)
  · exact absurd hm (by decide)
  · exact absurd hm (by decide)
  · exact absurd hm (by decide)
  · exact absurd hm (by decide)
  rcases List.mem_append.mp hm with hm2 | hm2
  · exact commaFree_natStr i hm2
  · simp only [List.mem_cons] at hm2
    rcases hm2 with hm2 | hm2
    · exact absurd hm2 (by decide)
    · exact h hm2

theorem itemKey_ne_signature (i : Nat) (suffix : String) : itemKey i suffix ≠ "signature" := by
  intro h
  have hd := congrArg String.data h
  rw [itemKey_data] at hd
  have hsig : ("signature".data : List Char) = ['s', 'i', 'g', 'n', 'a', 't', 'u', 'r', 'e'] := rfl
  rw [hsig] at hd
  exact absurd hd (by simp)

/-! ## Helper lemmas: the generated parameter dict -/

theorem mem_keysOf_pySet_of_mem (d : Dict) (k v k2 : String) (h : k2 ∈ keysOf d) :
    k2 ∈ keysOf (pySet d k v) := by
  rw [keysOf_pySet]
  by_cases hm : k ∈ keysOf d
  · rwa [if_pos hm]
  · rw [if_neg hm]
    exact List.mem_append_left _ h

theorem mem_keysOf_lineParams (d : Dict) (i : Nat) (l : Line) (k : String)
    (h : k ∈ keysOf (lineParams d i l)) :
    k ∈ keysOf d ∨ k ∈ itemSuffixes.map (itemKey i) := by
  unfold lineParams at h
  rcases mem_keysOf_pySet _ _ _ _ h with h | rfl
  swap
  · exact Or.inr (by simp [itemSuffixes])
  rcases mem_keysOf_pySet _ _ _ _ h with h | rfl
  swap
  · exact Or.inr (by simp [itemSuffixes])
  rcases mem_keysOf_pySet _ _ _ _ h with h | rfl
  swap
  · exact Or.inr (by simp [itemSuffixes])
  rcases mem_keysOf_pySet _ _ _ _ h with h | rfl
  swap
  · exact Or.inr (by simp [itemSuffixes])
  rcases mem_keysOf_pySet _ _ _ _ h with h | rfl
  swap
  · exact Or.inr (by simp [itemSuffixes])
  rcases mem_keysOf_pySet _ _ _ _ h with h | rfl
  swap
  · exact Or.inr (by simp [itemSuffixes])
  rcases mem_keysOf_pySet _ _ _ _ h with h | rfl
  swap
  · exact Or.inr (by simp [itemSuffixes])
  rcases mem_keysOf_pySet _ _ _ _ h with h | rfl
  swap
  · exact Or.inr (by simp [itemSuffixes])
  rcases mem_keysOf_pySet _ _ _ _ h with h | rfl
  swap
  · exact Or.inr (by simp [itemSuffixes])
  rcases mem_keysOf_pySet _ _ _ _ h with h | rfl
  swap
  · exact Or.inr (by simp [itemSuffixes])
  rcases mem_keysOf_pySet _ _ _ _ h with h | rfl
  swap
  · exact Or.inr (by simp [itemSuffixes])
  exact Or.inl h

theorem nodup_keysOf_lineParams (d : Dict) (i : Nat) (l : Line)
    (h : (keysOf d).Nodup) : (keysOf (lineParams d i l)).Nodup := by
  unfold lineParams
  exact nodup_keysOf_pySet _ _ _ (nodup_keysOf_pySet _ _ _ (nodup_keysOf_pySet _ _ _
    (nodup_keysOf_pySet _ _ _ (nodup_keysOf_pySet _ _ _ (nodup_keysOf_pySet _ _ _
    (nodup_keysOf_pySet _ _ _ (nodup_keysOf_pySet _ _ _ (nodup_keysOf_pySet _ _ _
    (nodup_keysOf_pySet _ _ _ (nodup_keysOf_pySet _ _ _ h))))))))))

theorem mem_keysOf_addLineItems (ls : List Line) (d : Dict) (i : Nat) (k : String)
    (h : k ∈ keysOf (addLineItems d i ls)) :
    k ∈ keysOf d ∨ ∃ j suf, suf ∈ itemSuffixes ∧ k = itemKey j suf := by
  induction ls generalizing d i with
  | nil => exact Or.inl h
  | cons l ls ih =>
    rcases ih (lineParams d i l) (i + 1) h with h2 | h2
    · rcases mem_keysOf_lineParams d i l k h2 with h3 | h3
      · exact Or.inl h3
      · obtain ⟨suf, hsuf, heq⟩ := List.mem_map.mp h3
        exact Or.inr ⟨i, suf, hsuf, heq.symm⟩
    · exact Or.inr h2

theorem nodup_keysOf_addLineItems (ls : List Line) (d : Dict) (i : Nat)
    (h : (keysOf d).Nodup) : (keysOf (addLineItems d i ls)).Nodup := by
  induction ls generalizing d i with
  | nil => exact h
  | cons l ls ih => exact ih (lineParams d i l) (i + 1) (nodup_keysOf_lineParams d i l h)

theorem mem_keysOf_addLineItems_of_mem (ls : List Line) (d : Dict) (i : Nat) (k : String)
    (h : k ∈ keysOf d) : k ∈ keysOf (addLineItems d i ls) := by
  induction ls generalizing d i with
  | nil => exact h
  | cons l ls ih =>
    apply ih (lineParams d i l) (i + 1)
    unfold lineParams
    exact mem_keysOf_pySet_of_mem _ _ _ _ (mem_keysOf_pySet_of_mem _ _ _ _
      (mem_keysOf_pySet_of_mem _ _ _ _ (mem_keysOf_pySet_of_mem _ _ _ _
      (mem_keysOf_pySet_of_mem _ _ _ _ (mem_keysOf_pySet_of_mem _ _ _ _
      (mem_keysOf_pySet_of_mem _ _ _ _ (mem_keysOf_pySet_of_mem _ _ _ _
      (mem_keysOf_pySet_of_mem _ _ _ _ (mem_keysOf_pySet_of_mem _ _ _ _
      (mem_keysOf_pySet_of_mem _ _ _ _ h))))))))))

theorem mem_keysOf_dictUpdate_of_mem (e d : Dict) (k : String) (h : k ∈ keysOf d) :
    k ∈ keysOf (dictUpdate d e) := by
  induction e generalizing d with
  | nil => exact h
  | cons hd tl ih =>
    obtain ⟨k0, v0⟩ := hd
    exact ih (pySet d k0 v0) (mem_keysOf_pySet_of_mem d k0 v0 k h)

theorem keysOf_preParams_base (cfg : CybersourceConfig) (basket : Basket)
    (transactionUuid signedDateTime : String) :
    keysOf [("access_key", cfg.accessKey), ("profile_id", cfg.profileId),
            ("transaction_uuid", transactionUuid), ("signed_field_names", ""),
            ("unsigned_field_names", ""), ("signed_date_time", signedDateTime),
            ("locale", cfg.languageCode), ("transaction_type", "sale"),
            ("reference_number", basket.orderNumber), ("amount", basket.totalInclTax),
            ("currency", basket.currency), ("consumer_id", basket.ownerUsername)] =
      paramBaseKeys := rfl

theorem mem_keysOf_preParams (cfg : CybersourceConfig) (basket : Basket)
    (transactionUuid signedDateTime : String) (extra : Dict) (k : String)
    (h : k ∈ keysOf (preParams cfg basket transactionUuid signedDateTime extra)) :
    k ∈ paramBaseKeys ∨ k ∈ level23Keys ∨
      (∃ j suf, suf ∈ itemSuffixes ∧ k = itemKey j suf) ∨ k ∈ keysOf extra := by
  simp only [preParams] at h
  rcases mem_keysOf_dictUpdate _ _ _ h with h2 | h2
  · by_cases hl : cfg.sendLevel23
    · rw [if_pos hl] at h2
      rcases mem_keysOf_addLineItems _ _ _ _ h2 with h3 | h3
      · rcases mem_keysOf_pySet _ _ _ _ h3 with h4 | rfl
        swap
        · exact Or.inr (Or.inl (by simp [level23Keys]))
        rcases mem_keysOf_pySet _ _ _ _ h4 with h5 | rfl
        swap
        · exact Or.inr (Or.inl (by simp [level23Keys]))
        rcases mem_keysOf_pySet _ _ _ _ h5 with h6 | rfl
        swap
        · exact Or.inr (Or.inl (by simp [level23Keys]))
        rcases mem_keysOf_pySet _ _ _ _ h6 with h7 | rfl
        swap
        · exact Or.inr (Or.inl (by simp [level23Keys]))
        rw [keysOf_preParams_base] at h7
        exact Or.inl h7
      · exact Or.inr (Or.inr (Or.inl h3))
    · rw [if_neg hl] at h2
      rw [keysOf_preParams_base] at h2
      exact Or.inl h2
  · exact Or.inr (Or.inr (Or.inr h2))

theorem nodup_keysOf_preParams (cfg : CybersourceConfig) (basket : Basket)
    (transactionUuid signedDateTime : String) (extra : Dict) :
    (keysOf (preParams cfg basket transactionUuid signedDateTime extra)).Nodup := by
  simp only [preParams]
  apply nodup_keysOf_dictUpdate
  have hbase : (paramBaseKeys).Nodup := by decide
  by_cases hl : cfg.sendLevel23
  · rw [if_pos hl]
    apply nodup_keysOf_addLineItems
    apply nodup_keysOf_pySet
    apply nodup_keysOf_pySet
    apply nodup_keysOf_pySet
    apply nodup_keysOf_pySet
    rw [keysOf_preParams_base]
    exact hbase
  · rw [if_neg hl]
    rw [keysOf_preParams_base]
    exact hbase

theorem paramBaseKeys_good : ∀ k ∈ paramBaseKeys, commaFree k ∧ k ≠ "signature" := by
  decide

theorem level23Keys_good : ∀ k ∈ level23Keys, commaFree k ∧ k ≠ "signature" := by
  decide

theorem itemSuffixes_commaFree : ∀ suf ∈ itemSuffixes, commaFree suf := by
  decide

theorem keysOf_preParams_good (cfg : CybersourceConfig) (basket : Basket)
    (transactionUuid signedDateTime : String) (extra : Dict)
    (hextra : ∀ k ∈ keysOf extra, commaFree k ∧ k ≠ "signature") :
    ∀ k ∈ keysOf (preParams cfg basket transactionUuid signedDateTime extra),
      commaFree k ∧ k ≠ "signature" := by
  intro k hk
  rcases mem_keysOf_preParams cfg basket transactionUuid signedDateTime extra k hk
    with h | h | h | h
  · exact paramBaseKeys_good k h
  · exact level23Keys_good k h
  · obtain ⟨j, suf, hsuf, rfl⟩ := h
    exact ⟨commaFree_itemKey j suf (itemSuffixes_commaFree suf hsuf),
      itemKey_ne_signature j suf⟩
  · exact hextra k h

theorem keysOf_preParams_ne_nil (cfg : CybersourceConfig) (basket : Basket)
    (transactionUuid signedDateTime : String) (extra : Dict) :
    keysOf (preParams cfg basket transactionUuid signedDateTime extra) ≠ [] := by
  have hmem : "access_key" ∈ keysOf (preParams cfg basket transactionUuid signedDateTime extra) := by
    simp only [preParams]
    apply mem_keysOf_dictUpdate_of_mem
    by_cases hl : cfg.sendLevel23
    · rw [if_pos hl]
      apply mem_keysOf_addLineItems_of_mem
      apply mem_keysOf_pySet_of_mem
      apply mem_keysOf_pySet_of_mem
      apply mem_keysOf_pySet_of_mem
      apply mem_keysOf_pySet_of_mem
      rw [keysOf_preParams_base]
      decide
    · rw [if_neg hl]
      rw [keysOf_preParams_base]
      decide
  exact List.ne_nil_of_mem hmem

theorem generate_parameters_ok (cfg : CybersourceConfig) (basket : Basket)
    (transactionUuid signedDateTime : String) (extra : Dict) (ps : Dict)
    (h : generate_parameters cfg basket transactionUuid signedDateTime extra = .ok ps) :
    ps = preParams cfg basket transactionUuid signedDateTime extra ∧
      (PCI_FIELDS.any (fun f =>
        decide (f ∈ keysOf (preParams cfg basket transactionUuid signedDateTime extra)))) = false := by
  unfold generate_parameters at h
  by_cases hguard : (PCI_FIELDS.any (fun f =>
      decide (f ∈ keysOf (preParams cfg basket transactionUuid signedDateTime extra)))) = true
  · rw [if_pos hguard] at h
    exact absurd h (by simp)
  · rw [if_neg hguard] at h
    exact ⟨(Except.ok.injEq _ _ |>.mp h).symm, Bool.not_eq_true _ |>.mp hguard⟩

theorem messageFor_congr (d1 d2 : Dict) (sfn : String)
    (h : ∀ k ∈ pySplit sfn, pyGet d1 k = pyGet d2 k) :
    messageFor d1 sfn = messageFor d2 sfn := by
  unfold messageFor
  congr 1
  apply List.map_congr_left
  intro k hk
  rw [h k hk]


theorem get_transaction_parameters_eq (cfg : CybersourceConfig) (basket : Basket)
    (transactionUuid signedDateTime : String) (extra : Dict) (params : Dict)
    (hg : generate_parameters cfg basket transactionUuid signedDateTime extra = .ok params) :
    get_transaction_parameters cfg basket transactionUuid signedDateTime extra =
      .ok (pySet (pySet params "signed_field_names" (joinComma (pySorted (keysOf params))))
        "signature"
        (sign (messageFor
          (pySet params "signed_field_names" (joinComma (pySorted (keysOf params))))
          (joinComma (pySorted (keysOf params)))) cfg.secretKey)) := by
  have hsig : generate_signature cfg.secretKey
      (pySet params "signed_field_names" (joinComma (pySorted (keysOf params)))) =
      .ok (sign (messageFor
        (pySet params "signed_field_names" (joinComma (pySorted (keysOf params))))
        (joinComma (pySorted (keysOf params)))) cfg.secretKey) := by
    unfold generate_signature
    rw [pyGet_pySet_self]
  simp only [get_transaction_parameters, hg, hsig]

theorem get_transaction_parameters_ok (cfg : CybersourceConfig) (basket : Basket)
    (transactionUuid signedDateTime : String) (extra : Dict) (ps : Dict)
    (h : get_transaction_parameters cfg basket transactionUuid signedDateTime extra = .ok ps) :
    ∃ params,
      generate_parameters cfg basket transactionUuid signedDateTime extra = .ok params ∧
      ps = pySet (pySet params "signed_field_names" (joinComma (pySorted (keysOf params))))
        "signature"
        (sign (messageFor
          (pySet params "signed_field_names" (joinComma (pySorted (keysOf params))))
          (joinComma (pySorted (keysOf params)))) cfg.secretKey) := by
  cases hg : generate_parameters cfg basket transactionUuid signedDateTime extra with
  | error e =>
    unfold get_transaction_parameters at h
    rw [hg] at h
    exact absurd h (by simp)
  | ok params =>
    rw [get_transaction_parameters_eq cfg basket transactionUuid signedDateTime extra params hg] at h
    exact ⟨params, rfl, ((Except.ok.injEq _ _).mp h).symm⟩

/-! ## Claims C5 to C10 -/

/-- C5: for every POST to the gateway notification endpoint, a successful
validation and order creation yields HTTP 200; an unresolvable basket or an
invalid response signature yields HTTP 400; a user-cancelled, declined, or
payment-error outcome yields an empty HTTP 200-class response (so the
gateway does not retry); any other unexpected failure — during validation
or during order creation — yields HTTP 500. -/
theorem C5_notify_status_mapping (n : Dict) (basketRes : Option Nat)
    (hp : Dict → Nat → Except PyExc Unit) (co : Nat → Except PyExc Unit) :
    (∀ b, basketRes = some b → hp n b = .ok () → co b = .ok () →
      notify_post n basketRes hp co = 200)
    ∧ (basketRes = none → notify_post n basketRes hp co = 400)
    ∧ (∀ b, basketRes = some b → hp n b = .error .invalidSignature →
        notify_post n basketRes hp co = 400)
    ∧ (∀ b e, basketRes = some b → hp n b = .error e → isPaymentError e = true →
        e ≠ .invalidSignature → notify_post n basketRes hp co = 200)
    ∧ (∀ b e, basketRes = some b → hp n b = .error e → isPaymentError e = false →
        e ≠ .invalidBasket → notify_post n basketRes hp co = 500)
    ∧ (∀ b e, basketRes = some b → hp n b = .ok () → co b = .error e →
        notify_post n basketRes hp co = 500) := by
  refine ⟨?_, ?_, ?_, ?_, ?_, ?_⟩
  · intro b hb hhp hco
    subst hb
    simp [notify_post, validate_notification, hhp, hco]
  · intro hb
    subst hb
    simp [notify_post, validate_notification]
  · intro b hb hhp
    subst hb
    simp [notify_post, validate_notification, hhp]
  · intro b e hb hhp hpe hne
    subst hb
    have hnb : e ≠ .invalidBasket := by
      intro hh
      rw [hh] at hpe
      exact absurd hpe (by decide)
    simp [notify_post, validate_notification, hhp, hne, hnb, hpe]
  · intro b e hb hhp hpe hnb
    subst hb
    have hns : e ≠ .invalidSignature := by
      intro hh
      rw [hh] at hpe
      exact absurd hpe (by decide)
    simp [notify_post, validate_notification, hhp, hns, hnb, hpe]
  · intro b e hb hhp hco
    subst hb
    simp [notify_post, validate_notification, hhp, hco]

/-- Witness for C5 at concrete scenarios: one per status class. -/
theorem C5_notify_status_mapping_witness :
    notify_post [] (some 5) (fun _ _ => .ok ()) (fun _ => .ok ()) = 200
    ∧ notify_post [] none (fun _ _ => .ok ()) (fun _ => .ok ()) = 400
    ∧ notify_post [] (some 5) (fun _ _ => .error .invalidSignature) (fun _ => .ok ()) = 400
    ∧ notify_post [] (some 5) (fun _ _ => .error .userCancelled) (fun _ => .ok ()) = 200
    ∧ notify_post [] (some 5) (fun _ _ => .error .transactionDeclined) (fun _ => .ok ()) = 200
    ∧ notify_post [] (some 5) (fun _ _ => .error .incompleteAuthorization) (fun _ => .ok ()) = 200
    ∧ notify_post [] (some 5) (fun _ _ => .error .generic) (fun _ => .ok ()) = 500
    ∧ notify_post [] (some 5) (fun _ _ => .ok ()) (fun _ => .error .generic) = 500 := by
  refine ⟨?_, ?_, ?_, ?_, ?_, ?_, ?_, ?_⟩
  · exact (C5_notify_status_mapping [] (some 5) (fun _ _ => .ok ()) (fun _ => .ok ())).1
      5 rfl rfl rfl
  · exact (C5_notify_status_mapping [] none (fun _ _ => .ok ()) (fun _ => .ok ())).2.1 rfl
  · exact (C5_notify_status_mapping [] (some 5) (fun _ _ => .error .invalidSignature)
      (fun _ => .ok ())).2.2.1 5 rfl rfl
  · exact (C5_notify_status_mapping [] (some 5) (fun _ _ => .error .userCancelled)
      (fun _ => .ok ())).2.2.2.1 5 .userCancelled rfl rfl (by decide) (by decide)
  · exact (C5_notify_status_mapping [] (some 5) (fun _ _ => .error .transactionDeclined)
      (fun _ => .ok ())).2.2.2.1 5 .transactionDeclined rfl rfl (by decide) (by decide)
  · exact (C5_notify_status_mapping [] (some 5) (fun _ _ => .error .incompleteAuthorization)
      (fun _ => .ok ())).2.2.2.1 5 .incompleteAuthorization rfl rfl (by decide) (by decide)
  · exact (C5_notify_status_mapping [] (some 5) (fun _ _ => .error .generic)
      (fun _ => .ok ())).2.2.2.2.1 5 .generic rfl rfl (by decide) (by decide)
  · exact (C5_notify_status_mapping [] (some 5) (fun _ _ => .ok ())
      (fun _ => .error .generic)).2.2.2.2.2 5 .generic rfl rfl rfl

/-- C6: for every notification received by the gateway notification
handler, `record_processor_response` is invoked with the raw notification
before any validation (`handle_payment`) is attempted, and this happens on
every path — also when the basket cannot be resolved and when validation
fails (the recording sits in the `finally` of `validate_notification`). -/
theorem C6_audit_recorded_before_validation (n : Dict) (basketRes : Option Nat)
    (hp : Dict → Nat → Except PyExc Unit) :
    Event.record n basketRes ∈ (validate_notification n basketRes hp).1
    ∧ (validate_notification n basketRes hp).1.indexOf (Event.record n basketRes) <
      (validate_notification n basketRes hp).1.indexOf (Event.handlePayment n) := by
  cases basketRes with
  | none =>
    have hev : (validate_notification n none hp).1 =
        [Event.resolveBasket, Event.record n none] := rfl
    rw [hev]
    refine ⟨by simp, ?_⟩
    have h1 : ([Event.resolveBasket, Event.record n none] : List Event).indexOf
        (Event.record n none) = 1 := by
      rw [List.indexOf_cons_ne _ (fun hc => by cases hc), List.indexOf_cons_self]
    have h2 : ([Event.resolveBasket, Event.record n none] : List Event).indexOf
        (Event.handlePayment n) = 2 := by
      rw [List.indexOf_cons_ne _ (fun hc => by cases hc),
        List.indexOf_cons_ne _ (fun hc => by cases hc)]
      rfl
    rw [h1, h2]
    omega
  | some b =>
    have hev : (validate_notification n (some b) hp).1 =
        [Event.resolveBasket, Event.record n (some b), Event.handlePayment n] := by
      cases hhp : hp n b <;> simp [validate_notification, hhp]
    rw [hev]
    refine ⟨by simp, ?_⟩
    have h1 : ([Event.resolveBasket, Event.record n (some b), Event.handlePayment n] :
        List Event).indexOf (Event.record n (some b)) = 1 := by
      rw [List.indexOf_cons_ne _ (fun hc => by cases hc), List.indexOf_cons_self]
    have h2 : ([Event.resolveBasket, Event.record n (some b), Event.handlePayment n] :
        List Event).indexOf (Event.handlePayment n) = 2 := by
      rw [List.indexOf_cons_ne _ (fun hc => by cases hc),
        List.indexOf_cons_ne _ (fun hc => by cases hc), List.indexOf_cons_self]
    rw [h1, h2]
    omega

/-- C7: the gateway submit endpoint, on a valid payment form for an `Open`
basket, is specified to run the SDN check and reject a failing check with
HTTP 400. The code instead calls `sdn_check(request, full_name,
data[country])` with three positional arguments while
`extensions/payment/utils.py` defines `sdn_check(request, full_name,
address, country)` with four required parameters, so every such request
raises `TypeError` — an HTTP 500, never the SDN 400 rejection, never
frozen-basket parameters. This theorem evaluates the embedded view at the
failing input, exhibiting the divergence from the claim. -/
theorem C7_submit_sdn_check_type_error (firstName lastName country : String) :
    cybersource_submit_form_valid "Open" firstName lastName country = .error .typeError
    ∧ djangoStatus (cybersource_submit_form_valid "Open" firstName lastName country) = 500
    ∧ ∀ r, cybersource_submit_form_valid "Open" firstName lastName country ≠ .ok r := by
  refine ⟨rfl, rfl, ?_⟩
  intro r h
  exact absurd h (by simp [cybersource_submit_form_valid])

/-- C8: `sdn_check` passes (true) without creating a record when the
screening API does not answer 200 (fail-open) or when the match total is
zero; otherwise it creates exactly one SDN Check Failure record carrying
the submitted full name, address, country, the raw response and the
basket, and fails (false). -/
theorem C8_sdn_check_outcomes (basket : Nat) (full_name address country : String)
    (resp : SdnApiResponse) (db : List SDNCheckFailure) :
    (resp.status_code ≠ 200 →
      sdn_check basket full_name address country resp db = (true, db))
    ∧ (resp.status_code = 200 → resp.total = 0 →
      sdn_check basket full_name address country resp db = (true, db))
    ∧ (resp.status_code = 200 → resp.total ≠ 0 →
      sdn_check basket full_name address country resp db =
        (false, db ++ [⟨full_name, address, country, resp.content, basket⟩])) := by
  refine ⟨?_, ?_, ?_⟩ <;> intros <;> simp [sdn_check, *]

/-- Witness for C8 at three concrete screenings. -/
theorem C8_sdn_check_outcomes_witness :
    sdn_check 7 "Dr Evil" "1 Volcano Lair" "Evilland" ⟨503, "unavailable", 1⟩ [] = (true, [])
    ∧ sdn_check 7 "Dr Evil" "1 Volcano Lair" "Evilland" ⟨200, "clear", 0⟩ [] = (true, [])
    ∧ sdn_check 7 "Dr Evil" "1 Volcano Lair" "Evilland" ⟨200, "hit", 2⟩ [] =
        (false, [⟨"Dr Evil", "1 Volcano Lair", "Evilland", "hit", 7⟩]) := by
  refine ⟨?_, ?_, ?_⟩
  · exact (C8_sdn_check_outcomes 7 "Dr Evil" "1 Volcano Lair" "Evilland"
      ⟨503, "unavailable", 1⟩ []).1 (by decide)
  · exact (C8_sdn_check_outcomes 7 "Dr Evil" "1 Volcano Lair" "Evilland"
      ⟨200, "clear", 0⟩ []).2.1 rfl rfl
  · exact (C8_sdn_check_outcomes 7 "Dr Evil" "1 Volcano Lair" "Evilland"
      ⟨200, "hit", 2⟩ []).2.2 rfl (by decide)

/-- C9: `middle_truncate` keeps a fitting string, truncates around the
three-dot indicator as the spec examples show (10 characters to limit 9 is
`xxx...xxx`, to 8 is `xx...xx`), and raises `ValueError` below limit 3.
However, at the failing input (string `abcd`, limit 3) the code returns
`...abcd` — length 7, exceeding the limit — instead of the first 0
characters, the indicator and the last 0 characters, because the Python
slice `string[-0:]` selects the whole string; this contradicts the
docstring promise that the result length is at most `chars`. -/
theorem C9_middle_truncate_zero_slice_bug :
    middle_truncate "xxxxxxxxxx" 10 = .ok "xxxxxxxxxx"
    ∧ middle_truncate "xxxxxxxxxx" 11 = .ok "xxxxxxxxxx"
    ∧ middle_truncate "xxxxxxxxxx" 9 = .ok "xxx...xxx"
    ∧ middle_truncate "xxxxxxxxxx" 8 = .ok "xx...xx"
    ∧ middle_truncate "xxxxxxxxxx" 0 = .error .valueError
    ∧ middle_truncate "abcd" 3 = .ok "...abcd"
    ∧ ("...abcd").length = 7
    ∧ ¬("...abcd").length ≤ 3 := by
  decide

/-- C10: the cache key of `get_enterprise_learner_data` is built only from
the site domain, the partner code and the fixed resource name — not the
learner — so once a truthy response is cached under that key, the function
returns it for every learner: its result is independent of the learner
argument whenever the cache is populated. -/
theorem C10_learner_data_cache_ignores_learner {α : Type} (md5hex : String → String)
    (cache : String → Option α) (truthy : α → Bool) (fetch : String → α)
    (domain partnerCode u1 u2 : String) (v : α)
    (hc : cache (md5hex (enterpriseCacheKeyRaw domain partnerCode)) = some v)
    (ht : truthy v = true) :
    (get_enterprise_learner_data md5hex cache truthy fetch domain partnerCode u1).1 = v
    ∧ (get_enterprise_learner_data md5hex cache truthy fetch domain partnerCode u1).1 =
      (get_enterprise_learner_data md5hex cache truthy fetch domain partnerCode u2).1 := by
  simp only [get_enterprise_learner_data, hc, ht]
  simp

/-- Witness for C10: with a concrete populated cache, two distinct learners
get the same cached payload, even though the service call would have
differed per learner. -/
theorem C10_learner_data_cache_ignores_learner_witness :
    (get_enterprise_learner_data id c10cache (fun _ => true) c10fetch
      "example.com" "edx" "alice").1 = "cached-payload"
    ∧ (get_enterprise_learner_data id c10cache (fun _ => true) c10fetch
        "example.com" "edx" "alice").1 =
      (get_enterprise_learner_data id c10cache (fun _ => true) c10fetch
        "example.com" "edx" "bob").1 :=
  C10_learner_data_cache_ignores_learner id c10cache (fun _ => true) c10fetch
    "example.com" "edx" "alice" "bob" "cached-payload" (by decide) rfl


/-! ## Claims C1, C3, C4 -/

/-- C1: if any of the four PCI fields `card_cvn`, `card_expiry_date`,
`card_number`, `card_type` occurs among the keys of the generated parameter
dict (defaults, line-item fields, or extra-parameter overrides), then both
`_generate_parameters` and `get_transaction_parameters` raise the
PCI-violation failure instead of returning a parameter set; consequently a
returned parameter set never contains any of these keys. -/
theorem C1_pci_guard (cfg : CybersourceConfig) (basket : Basket)
    (transactionUuid signedDateTime : String) (extra : Dict) :
    ((∃ f ∈ PCI_FIELDS,
        f ∈ keysOf (preParams cfg basket transactionUuid signedDateTime extra)) →
      generate_parameters cfg basket transactionUuid signedDateTime extra =
        .error .pciViolation
      ∧ get_transaction_parameters cfg basket transactionUuid signedDateTime extra =
        .error .pciViolation)
    ∧ (∀ ps, generate_parameters cfg basket transactionUuid signedDateTime extra = .ok ps →
        ∀ f ∈ PCI_FIELDS, f ∉ keysOf ps)
    ∧ (∀ ps, get_transaction_parameters cfg basket transactionUuid signedDateTime extra =
        .ok ps → ∀ f ∈ PCI_FIELDS, f ∉ keysOf ps) := by
  refine ⟨?_, ?_, ?_⟩
  · intro hex
    have hany : (PCI_FIELDS.any fun f =>
        decide (f ∈ keysOf (preParams cfg basket transactionUuid signedDateTime extra))) =
        true := by
      rw [List.any_eq_true]
      obtain ⟨f, hf, hmem⟩ := hex
      exact ⟨f, hf, by simpa using hmem⟩
    have hgen : generate_parameters cfg basket transactionUuid signedDateTime extra =
        .error .pciViolation := by
      unfold generate_parameters
      rw [if_pos hany]
    refine ⟨hgen, ?_⟩
    unfold get_transaction_parameters
    rw [hgen]
  · intro ps hok f hf hmem
    obtain ⟨hps, hany⟩ :=
      generate_parameters_ok cfg basket transactionUuid signedDateTime extra ps hok
    subst hps
    have htrue : (PCI_FIELDS.any fun f =>
        decide (f ∈ keysOf (preParams cfg basket transactionUuid signedDateTime extra))) =
        true := List.any_eq_true.mpr ⟨f, hf, by simpa using hmem⟩
    rw [hany] at htrue
    cases htrue
  · intro ps hok f hf hmem
    obtain ⟨params, hgen, hps⟩ :=
      get_transaction_parameters_ok cfg basket transactionUuid signedDateTime extra ps hok
    subst hps
    rcases mem_keysOf_pySet _ _ _ _ hmem with hm | rfl
    · rcases mem_keysOf_pySet _ _ _ _ hm with hm2 | rfl
      · obtain ⟨hps2, hany⟩ :=
          generate_parameters_ok cfg basket transactionUuid signedDateTime extra params hgen
        subst hps2
        have htrue : (PCI_FIELDS.any fun f =>
            decide (f ∈ keysOf (preParams cfg basket transactionUuid signedDateTime extra))) =
            true := List.any_eq_true.mpr ⟨f, hf, by simpa using hm2⟩
        rw [hany] at htrue
        cases htrue
      · exact absurd hf (by decide)
    · exact absurd hf (by decide)

/-- Witness for C1: a `card_number` extra parameter aborts both entry
points with the PCI violation, and the parameter set produced without it
carries no `card_cvn` key. -/
theorem C1_pci_guard_witness :
    generate_parameters testConfig testBasket testUuid testDt
      [("card_number", "4111111111111111")] = .error .pciViolation
    ∧ get_transaction_parameters testConfig testBasket testUuid testDt
        [("card_number", "4111111111111111")] = .error .pciViolation
    ∧ "card_cvn" ∉ keysOf c2ps := by
  refine ⟨?_, ?_, ?_⟩
  · exact ((C1_pci_guard testConfig testBasket testUuid testDt
      [("card_number", "4111111111111111")]).1 (by decide)).1
  · exact ((C1_pci_guard testConfig testBasket testUuid testDt
      [("card_number", "4111111111111111")]).1 (by decide)).2
  · exact (C1_pci_guard testConfig testBasket testUuid testDt []).2.2 c2ps (by decide)
      "card_cvn" (by decide)

/-- C3: for a validly signed response, `handle_processor_response` reads
`decision` case-insensitively; `accept` with matching amounts returns the
5-tuple (transaction id, requested amount, currency, masked card number,
card type mapped through `CYBERSOURCE_CARD_TYPE_MAP`); `cancel` raises the
user-cancelled failure, `decline` the transaction-declined failure, `error`
the generic gateway failure, and any other decision the invalid-decision
failure. The card map is exactly 001 to visa, 002 to mastercard, 003 to
american_express, 004 to discover, with no label for unmapped codes. -/
theorem C3_decision_mapping (secretKey : String) (response : Dict) (d0 : String)
    (hvalid : is_signature_valid secretKey response = .ok true)
    (hdec : pyGet response "decision" = some d0) :
    (∀ a r currency tid card ctype,
      pyLower d0 = "accept" →
      pyGet response "auth_amount" = some a → pyGet response "req_amount" = some r → a = r →
      pyGet response "req_currency" = some currency →
      pyGet response "transaction_id" = some tid →
      pyGet response "req_card_number" = some card →
      pyGet response "req_card_type" = some ctype →
      handle_processor_response secretKey response =
        .ok (tid, r, currency, card, pyGet CYBERSOURCE_CARD_TYPE_MAP ctype))
    ∧ (pyLower d0 = "cancel" →
        handle_processor_response secretKey response = .error .userCancelled)
    ∧ (pyLower d0 = "decline" →
        handle_processor_response secretKey response = .error .transactionDeclined)
    ∧ (pyLower d0 = "error" →
        handle_processor_response secretKey response = .error .gatewayError)
    ∧ (pyLower d0 ∉ (["accept", "cancel", "decline", "error"] : List String) →
        handle_processor_response secretKey response = .error .invalidCybersourceDecision)
    ∧ pyGet CYBERSOURCE_CARD_TYPE_MAP "001" = some "visa"
    ∧ pyGet CYBERSOURCE_CARD_TYPE_MAP "002" = some "mastercard"
    ∧ pyGet CYBERSOURCE_CARD_TYPE_MAP "003" = some "american_express"
    ∧ pyGet CYBERSOURCE_CARD_TYPE_MAP "004" = some "discover"
    ∧ (∀ c, c ∉ (["001", "002", "003", "004"] : List String) →
        pyGet CYBERSOURCE_CARD_TYPE_MAP c = none) := by
  refine ⟨?_, ?_, ?_, ?_, ?_, by decide, by decide, by decide, by decide, ?_⟩
  · intro a r currency tid card ctype hacc ha hr harr hcur htid hcard hctype
    subst harr
    simp [handle_processor_response, hvalid, hdec, hacc, ha, hr, hcur, htid, hcard, hctype]
  · intro hcan
    simp [handle_processor_response, hvalid, hdec, hcan]
  · intro hdecl
    simp [handle_processor_response, hvalid, hdec, hdecl]
  · intro herr
    simp [handle_processor_response, hvalid, hdec, herr]
  · intro hother
    simp only [List.mem_cons, List.not_mem_nil, or_false, not_or] at hother
    obtain ⟨h1, h2, h3, h4⟩ := hother
    simp [handle_processor_response, hvalid, hdec, h1, h2, h3, h4]
  · intro c hc
    simp only [List.mem_cons, List.not_mem_nil, or_false, not_or] at hc
    obtain ⟨h1, h2, h3, h4⟩ := hc
    simp only [CYBERSOURCE_CARD_TYPE_MAP, pyGet]
    rw [if_neg (fun hh => h1 hh.symm), if_neg (fun hh => h2 hh.symm),
      if_neg (fun hh => h3 hh.symm), if_neg (fun hh => h4 hh.symm)]

/-- Witness for C3: the concrete validly signed `ACCEPT` response returns
its 5-tuple with the visa label, and the concrete validly signed `CANCEL`
response raises the user-cancelled failure. -/
theorem C3_decision_mapping_witness :
    handle_processor_response "sekrit" c3resp =
      .ok ("TX0001", "99.99", "USD", "xxxxxxxxxxxx1111", some "visa")
    ∧ handle_processor_response "sekrit" c3cancel = .error .userCancelled := by
  constructor
  · have h := (C3_decision_mapping "sekrit" c3resp "ACCEPT" (by decide) (by decide)).1
      "99.99" "99.99" "USD" "TX0001" "xxxxxxxxxxxx1111" "001"
      (by decide) (by decide) (by decide) rfl (by decide) (by decide) (by decide) (by decide)
    rw [h]
    decide
  · exact (C3_decision_mapping "sekrit" c3cancel "CANCEL" (by decide) (by decide)).2.1
      (by decide)

/-- C4: for every validly signed response with decision `accept`, a
mismatch between `auth_amount` and `req_amount` (the code compares the raw
strings, so any numeric mismatch — even by a cent — is a mismatch) raises
the partial-authorization failure, and a success tuple is never
returned. -/
theorem C4_amount_mismatch_rejected (secretKey : String) (response : Dict)
    (d0 a r : String)
    (hvalid : is_signature_valid secretKey response = .ok true)
    (hdec : pyGet response "decision" = some d0)
    (hacc : pyLower d0 = "accept")
    (ha : pyGet response "auth_amount" = some a)
    (hr : pyGet response "req_amount" = some r)
    (hne : a ≠ r) :
    handle_processor_response secretKey response = .error .incompleteAuthorization
    ∧ ∀ t, handle_processor_response secretKey response ≠ .ok t := by
  have hmain : handle_processor_response secretKey response =
      .error .incompleteAuthorization := by
    simp [handle_processor_response, hvalid, hdec, hacc, ha, hr, hne]
  exact ⟨hmain, fun t h => Except.noConfusion (hmain ▸ h)⟩

/-- Witness for C4: a validly signed accept response authorized for 100.00
against a requested 99.99 — one cent apart — is rejected as a partial
authorization. -/
theorem C4_amount_mismatch_rejected_witness :
    handle_processor_response "sekrit" c4resp = .error .incompleteAuthorization :=
  (C4_amount_mismatch_rejected "sekrit" c4resp "accept" "100.00" "99.99"
    (by decide) (by decide) (by decide) (by decide) (by decide) (by decide)).1


/-! ## Claim C2 -/

/-- C2 counterexample to the claim as stated: the claim quantifies over
every caller-supplied `extra_parameters`, but when `extra_parameters`
itself carries a `signature` key, the signature is computed while the
injected value occupies the `signature` field (which is listed in
`signed_field_names`) and is then overwritten by the computed signature, so
`is_signature_valid` on the produced parameter set is false. -/
theorem C2_claim_counterexample :
    (get_transaction_parameters testConfig testBasket testUuid testDt
        [("signature", "injected")] >>=
      fun ps => is_signature_valid testConfig.secretKey ps) = .ok false := by
  decide

/-- C2 (amended): for every parameter set produced by
`get_transaction_parameters` whose caller-supplied extra parameters have
comma-free keys and do not override the `signature` key,
`is_signature_valid` on that same parameter set returns true; and changing
the value of any single signed field (other than the `signed_field_names`
list itself) changes the signed message, so `is_signature_valid` returns
false whenever HMAC-SHA256 assigns the changed message a different
signature. -/
theorem C2_signature_roundtrip_and_tamper (cfg : CybersourceConfig) (basket : Basket)
    (transactionUuid signedDateTime : String) (extra : Dict)
    (hextra : ∀ k ∈ keysOf extra, commaFree k ∧ k ≠ "signature")
    (ps : Dict)
    (hps : get_transaction_parameters cfg basket transactionUuid signedDateTime extra =
      .ok ps) :
    is_signature_valid cfg.secretKey ps = .ok true
    ∧ ∀ k0 vOld vNew,
        k0 ∈ pySplit ((pyGet ps "signed_field_names").getD "") →
        k0 ≠ "signed_field_names" →
        pyGet ps k0 = some vOld →
        vNew ≠ vOld →
        messageOf (pySet ps k0 vNew) ≠ messageOf ps
        ∧ (sign (messageOf (pySet ps k0 vNew)) cfg.secretKey ≠
            sign (messageOf ps) cfg.secretKey →
          is_signature_valid cfg.secretKey (pySet ps k0 vNew) = .ok false) := by
  obtain ⟨params, hgen, hpsEq⟩ :=
    get_transaction_parameters_ok cfg basket transactionUuid signedDateTime extra ps hps
  obtain ⟨hparamsEq, -⟩ :=
    generate_parameters_ok cfg basket transactionUuid signedDateTime extra params hgen
  have hnodup : (keysOf params).Nodup := by
    rw [hparamsEq]
    exact nodup_keysOf_preParams cfg basket transactionUuid signedDateTime extra
  have hgood : ∀ k ∈ keysOf params, commaFree k ∧ k ≠ "signature" := by
    rw [hparamsEq]
    exact keysOf_preParams_good cfg basket transactionUuid signedDateTime extra hextra
  have hksne : keysOf params ≠ [] := by
    rw [hparamsEq]
    exact keysOf_preParams_ne_nil cfg basket transactionUuid signedDateTime extra
  clear hparamsEq hgen hps
  set L := pySorted (keysOf params) with hLdef
  set J := joinComma L with hJdef
  set p1 := pySet params "signed_field_names" J with hp1def
  set sg := sign (messageFor p1 J) cfg.secretKey with hsgdef
  have hLcf : ∀ k ∈ L, commaFree k := fun k hk => (hgood k ((mem_pySorted _ k).mp hk)).1
  have hLnodup : L.Nodup := nodup_pySorted _ hnodup
  have hLne : L ≠ [] := pySorted_ne_nil _ hksne
  have hsigL : "signature" ∉ L :=
    fun hmem => (hgood _ ((mem_pySorted _ _).mp hmem)).2 rfl
  have hsplitJ : pySplit J = L := pySplit_joinComma L hLne hLcf
  have hp1sfn : pyGet p1 "signed_field_names" = some J := pyGet_pySet_self params _ _
  have hsfnNeSig : ("signed_field_names" : String) ≠ "signature" := by decide
  have hpssfn : pyGet ps "signed_field_names" = some J := by
    rw [hpsEq, pyGet_pySet_ne p1 "signature" sg "signed_field_names" hsfnNeSig]
    exact hp1sfn
  have hpssig : pyGet ps "signature" = some sg := by
    rw [hpsEq]
    exact pyGet_pySet_self p1 _ _
  have hgetPs : ∀ k, k ≠ "signature" → pyGet ps k = pyGet p1 k := by
    intro k hk
    rw [hpsEq]
    exact pyGet_pySet_ne p1 "signature" sg k hk
  have hmsgPs : messageFor ps J = messageFor p1 J := by
    apply messageFor_congr
    intro k hk
    rw [hsplitJ] at hk
    exact hgetPs k (fun hh => hsigL (hh ▸ hk))
  have hpsNonempty : dictIsEmpty ps = false := by
    rw [hpsEq]
    exact dictIsEmpty_pySet p1 _ _
  have hsgPs : sg = sign (messageFor ps J) cfg.secretKey := by
    rw [hsgdef, hmsgPs]
  have hgenSigPs : generate_signature cfg.secretKey ps = .ok sg := by
    unfold generate_signature
    rw [hpssfn, hsgPs]
  have hvalid : is_signature_valid cfg.secretKey ps = .ok true := by
    simp only [is_signature_valid, hpsNonempty, hgenSigPs, hpssig]
    simp
  refine ⟨hvalid, ?_⟩
  intro k0 vOld vNew hk0L hk0sfn hvOld hvne
  rw [hpssfn] at hk0L
  simp only [Option.getD_some] at hk0L
  rw [hsplitJ] at hk0L
  have hk0sig : k0 ≠ "signature" := fun hh => hsigL (hh ▸ hk0L)
  have htampSfn : pyGet (pySet ps k0 vNew) "signed_field_names" = some J := by
    rw [pyGet_pySet_ne ps k0 vNew "signed_field_names" (Ne.symm hk0sfn)]
    exact hpssfn
  have htampSig : pyGet (pySet ps k0 vNew) "signature" = some sg := by
    rw [pyGet_pySet_ne ps k0 vNew "signature" (Ne.symm hk0sig)]
    exact hpssig
  have hmsgTamp : messageOf (pySet ps k0 vNew) = messageFor (pySet ps k0 vNew) J := by
    unfold messageOf
    rw [htampSfn, Option.getD_some]
  have hmsgOfPs : messageOf ps = messageFor ps J := by
    unfold messageOf
    rw [hpssfn, Option.getD_some]
  obtain ⟨A, B, hLdecomp⟩ := List.append_of_mem hk0L
  have hnodupAB := hLdecomp ▸ hLnodup
  rw [List.nodup_append] at hnodupAB
  have hk0A : k0 ∉ A := fun ha => hnodupAB.2.2 ha (by simp)
  have hk0B : k0 ∉ B := (List.nodup_cons.mp hnodupAB.2.1).1
  have hmapA : A.map (fun k => k ++ "=" ++ ((pyGet (pySet ps k0 vNew) k).getD "None")) =
      A.map (fun k => k ++ "=" ++ ((pyGet ps k).getD "None")) := by
    apply List.map_congr_left
    intro k hkA
    rw [pyGet_pySet_ne ps k0 vNew k (fun hh => hk0A (hh ▸ hkA))]
  have hmapB : B.map (fun k => k ++ "=" ++ ((pyGet (pySet ps k0 vNew) k).getD "None")) =
      B.map (fun k => k ++ "=" ++ ((pyGet ps k).getD "None")) := by
    apply List.map_congr_left
    intro k hkB
    rw [pyGet_pySet_ne ps k0 vNew k (fun hh => hk0B (hh ▸ hkB))]
  have hfk0Tamp : (pyGet (pySet ps k0 vNew) k0).getD "None" = vNew := by
    rw [pyGet_pySet_self]
    rfl
  have hfk0Ps : (pyGet ps k0).getD "None" = vOld := by
    rw [hvOld]
    rfl
  have hmsgT : messageFor (pySet ps k0 vNew) J =
      joinComma ((A.map (fun k => k ++ "=" ++ ((pyGet ps k).getD "None"))) ++
        (k0 ++ "=" ++ vNew) :: (B.map (fun k => k ++ "=" ++ ((pyGet ps k).getD "None")))) := by
    unfold messageFor
    rw [hsplitJ, hLdecomp, List.map_append, List.map_cons, hmapA, hmapB, hfk0Tamp]
  have hmsgP : messageFor ps J =
      joinComma ((A.map (fun k => k ++ "=" ++ ((pyGet ps k).getD "None"))) ++
        (k0 ++ "=" ++ vOld) :: (B.map (fun k => k ++ "=" ++ ((pyGet ps k).getD "None")))) := by
    unfold messageFor
    rw [hsplitJ, hLdecomp, List.map_append, List.map_cons, hfk0Ps]
  have hne2 : (k0 ++ "=" ++ vNew) ≠ (k0 ++ "=" ++ vOld) := by
    intro hh
    exact hvne (strAppend_cancel_left (k0 ++ "=") vNew vOld hh)
  have hmsgne : messageFor (pySet ps k0 vNew) J ≠ messageFor ps J := by
    rw [hmsgT, hmsgP]
    exact joinComma_ne_at _ _ _ _ hne2
  refine ⟨?_, ?_⟩
  · rw [hmsgTamp, hmsgOfPs]
    exact hmsgne
  · intro hsignne
    rw [hmsgTamp, hmsgOfPs] at hsignne
    have hsigneq : sign (messageFor (pySet ps k0 vNew) J) cfg.secretKey ≠ sg := by
      rw [hsgPs]
      exact hsignne
    have hgenTamp : generate_signature cfg.secretKey (pySet ps k0 vNew) =
        .ok (sign (messageFor (pySet ps k0 vNew) J) cfg.secretKey) := by
      unfold generate_signature
      rw [htampSfn]
    have hteEmpty : dictIsEmpty (pySet ps k0 vNew) = false := dictIsEmpty_pySet ps _ _
    simp only [is_signature_valid, hteEmpty, hgenTamp, htampSig]
    simp [hsigneq]

/-- Witness for C2 at the concrete fixture: the produced parameter set
validates, and changing the signed `amount` field from 99.99 to 0.01
changes the signed message and makes validation fail. -/
theorem C2_signature_roundtrip_and_tamper_witness :
    is_signature_valid testConfig.secretKey c2ps = .ok true
    ∧ messageOf (pySet c2ps "amount" "0.01") ≠ messageOf c2ps
    ∧ is_signature_valid testConfig.secretKey (pySet c2ps "amount" "0.01") = .ok false := by
  have h := C2_signature_roundtrip_and_tamper testConfig testBasket testUuid testDt []
    (by intro k hk; exact absurd hk (List.not_mem_nil k))
    c2ps (by decide)
  have ht := h.2 "amount" "99.99" "0.01" (by decide) (by decide) (by decide) (by decide)
  exact ⟨h.1, ht.1, ht.2 (by decide)⟩


/-- The spec section 4.7 test vector for the signing helper, matching the
expectation of `tests/test_helpers.py`. -/
theorem sign_test_vector :
    sign "This is a super-secret message!" "password" =
      "qU4fRskS/R9yZx/yPq62sFGOUzX0GSUtmeI6bPVsqao=" := by
  decide

end EcommerceSpec
